import Mathlib

/-!
Shallow embedding of the CELLxGENE Census MCP server
(src/cellxgene_mcp/server.py) and proofs about its bounded-query,
truncation, category-listing and resource-lifecycle behaviour.

The archive itself (the cellxgene_census library) is external: every
embedded operation takes the data that the archive call would return as an
explicit argument (a plain value for the pure result-shaping logic, an
Except value for operations whose archive interaction can fail), and the
handle lifecycle is made explicit by threading a count of open handles.
-/

namespace Cellxgene

/-- Python slicing `l[:n]` and pandas `df.head(n)` for an int bound `n`:
for nonnegative `n` the first `n` elements, for negative `n` everything but
the last `-n` elements (empty when the list is shorter than `-n`). -/
def pyTake {α : Type} (l : List α) (n : Int) : List α :=
  if 0 ≤ n then l.take n.toNat else l.take (l.length - (-n).toNat)

/-- Column-selector parsing shared by the MCP-level wrappers
(CellxGeneMCP.get_obs_metadata, get_var_metadata, get_data_slice):
`columns = None; if column_names: columns = [col.strip() for col in
column_names.split(",")]`.  Python truthiness makes both None and the
empty string leave the selector absent. -/
def parseColumnNames : Option String → Option (List String)
  | none => none
  | some s => if s = "" then none else some ((s.splitOn ",").map (fun col => col.trim))

/-- Helper for `pdUnique`: keep the elements not seen yet, in order of
first appearance. -/
def pdUniqueAux {α : Type} [DecidableEq α] (seen : List α) : List α → List α
  | [] => []
  | a :: l => if a ∈ seen then pdUniqueAux seen l else a :: pdUniqueAux (a :: seen) l

/-- pandas `Series.unique`: the distinct values of a column, in order of
first appearance. -/
def pdUnique {α : Type} [DecidableEq α] (l : List α) : List α := pdUniqueAux [] l

/-- Ordering used by pandas `Series.value_counts`: descending frequency. -/
def countDesc (a b : String × Nat) : Prop := b.2 ≤ a.2

instance : DecidableRel countDesc := fun a b => inferInstanceAs (Decidable (b.2 ≤ a.2))

instance : IsTotal (String × Nat) countDesc := ⟨fun a b => le_total b.2 a.2⟩

instance : IsTrans (String × Nat) countDesc := ⟨fun _ _ _ hab hbc => le_trans hbc hab⟩

/-- pandas `Series.value_counts`: one `(value, frequency)` pair per distinct
value, sorted by descending frequency. -/
def value_counts (l : List String) : List (String × Nat) :=
  List.insertionSort countDesc ((pdUnique l).map (fun v => (v, l.count v)))

/-- The `query_info` block of a metadata Query Envelope. -/
structure QueryInfo where
  organism : String
  value_filter : Option String
  column_names : Option (List String)
  limited : Bool

/-- `QueryResult`: the Query Envelope returned by the metadata queries.
`Row` abstracts one dataframe row (a record). -/
structure QueryResult (Row : Type) where
  rows : List Row
  count : Nat
  query_info : QueryInfo

/-- An AnnData object as returned by `cellxgene_census.get_anndata`:
observation rows, variable rows, and the column names on each axis. -/
structure AnnData (Obs Var : Type) where
  obs : List Obs
  var : List Var
  obs_columns : List String
  var_columns : List String

/-- The `query_info` block of a data-slice summary. -/
structure SliceQueryInfo where
  organism : String
  obs_value_filter : Option String
  var_value_filter : Option String
  cells_limited : Bool
  genes_limited : Bool

/-- The summary returned by `get_anndata_slice` / `get_data_slice`. -/
structure SliceSummary (Obs Var : Type) where
  n_obs : Nat
  n_vars : Nat
  obs_columns : List String
  var_columns : List String
  obs_sample : List Obs
  var_sample : List Var
  query_info : SliceQueryInfo

namespace CensusManager

/-- `CensusManager.get_obs_metadata` (server.py lines 59-100), given the
dataframe `obs_df` that `cellxgene_census.get_obs` returned.  The first
`let obs_df :=` mirrors the Python reassignment `obs_df = obs_df.head(limit)`
inside `if len(obs_df) > limit:`; the `limited` flag is then computed from
the same (reassigned) `obs_df`, exactly as in the source. -/
def get_obs_metadata {Row : Type} (organism : String) (value_filter : Option String)
    (column_names : Option (List String)) (limit : Int) (obs_df : List Row) :
    QueryResult Row :=
  let obs_df := if (obs_df.length : Int) > limit then pyTake obs_df limit else obs_df
  let rows := obs_df
  { rows := rows
    count := rows.length
    query_info :=
      { organism := organism
        value_filter := value_filter
        column_names := column_names
        limited := decide ((obs_df.length : Int) > limit) } }

/-- `CensusManager.get_var_metadata` (server.py lines 102-143), given the
dataframe `var_df` that `cellxgene_census.get_var` returned.  Same shape as
`get_obs_metadata`, including the reassignment before the `limited` flag. -/
def get_var_metadata {Row : Type} (organism : String) (value_filter : Option String)
    (column_names : Option (List String)) (limit : Int) (var_df : List Row) :
    QueryResult Row :=
  let var_df := if (var_df.length : Int) > limit then pyTake var_df limit else var_df
  let rows := var_df
  { rows := rows
    count := rows.length
    query_info :=
      { organism := organism
        value_filter := value_filter
        column_names := column_names
        limited := decide ((var_df.length : Int) > limit) } }

/-- `CensusManager.get_anndata_slice` (server.py lines 145-201), given the
AnnData object that `cellxgene_census.get_anndata` returned.  The two
`let adata :=` mirror the Python reassignments `adata = adata[:max_cells, :]`
and `adata = adata[:, :max_genes]`; the `cells_limited` / `genes_limited`
flags compare the post-truncation dimensions for equality with the caps,
as in the source. -/
def get_anndata_slice {Obs Var : Type} (organism : String)
    (obs_value_filter var_value_filter : Option String)
    (obs_column_names var_column_names : Option (List String))
    (max_cells max_genes : Int) (adata : AnnData Obs Var) : SliceSummary Obs Var :=
  let adata := if (adata.obs.length : Int) > max_cells then
      { adata with obs := pyTake adata.obs max_cells } else adata
  let adata := if (adata.var.length : Int) > max_genes then
      { adata with var := pyTake adata.var max_genes } else adata
  { n_obs := adata.obs.length
    n_vars := adata.var.length
    obs_columns := adata.obs_columns
    var_columns := adata.var_columns
    obs_sample := if 0 < adata.obs.length then adata.obs.take 5 else []
    var_sample := if 0 < adata.var.length then adata.var.take 5 else []
    query_info :=
      { organism := organism
        obs_value_filter := obs_value_filter
        var_value_filter := var_value_filter
        cells_limited := decide ((adata.obs.length : Int) = max_cells)
        genes_limited := decide ((adata.var.length : Int) = max_genes) } }

/-- `CensusManager.get_census` (server.py lines 49-57): the scoped
connection.  `openResult` is the outcome of `cellxgene_census.open_soma`
(an error means the open itself raised, so no handle exists); on success a
handle is opened, the body runs with it, and the `finally` block closes the
handle whether the body succeeded or raised.  The second component of the
result is the number of open handles after the call, given `handles` open
before it; the body is given the count while the handle is open and reports
the count it leaves behind. -/
def withCensus {α : Type} (openResult : Except String Unit)
    (body : Nat → Except String α × Nat) (handles : Nat) :
    Except String α × Nat :=
  match openResult with
  | .error e => (.error e, handles)
  | .ok _ =>
    let r := body (handles + 1)
    (r.1, r.2 - 1)

end CensusManager

/-- Statistics computed per organism by `get_census_info`
(server.py lines 331-349). -/
structure OrganismStats where
  total_cells : Nat
  total_genes : Nat
  obs_columns : List String
  var_columns : List String

/-- The per-organism loop of `CellxGeneMCP.get_census_info`
(server.py lines 329-352): for each organism the stats fetch is attempted;
on success the stats are recorded and the cell total accumulated, on
failure the exception is caught and recorded as an error entry for that
organism, and the loop continues.  Returns the `organism_stats` mapping
(an error entry modelled as `Except.error`) and `total_cells`. -/
def organismStatsLoop (fetch : String → Except String OrganismStats) :
    List String → List (String × Except String OrganismStats) × Nat
  | [] => ([], 0)
  | org :: rest =>
    let tail := organismStatsLoop fetch rest
    match fetch org with
    | .ok s => ((org, .ok s) :: tail.1, s.total_cells + tail.2)
    | .error e => ((org, .error e) :: tail.1, tail.2)

/-- The fields of the `get_census_info` result that depend on the
per-organism loop. -/
structure CensusInfoResult where
  supported_organisms : List String
  organism_statistics : List (String × Except String OrganismStats)
  total_cells_across_organisms : Nat

namespace Calls

open CensusManager

/-- The full `get_obs_metadata` call: connection scope around the archive
fetch (whose outcome is `fetched`) and the result shaping. -/
def get_obs_metadata_call {Row : Type} (organism : String) (value_filter : Option String)
    (column_names : Option (List String)) (limit : Int)
    (openResult : Except String Unit) (fetched : Except String (List Row))
    (handles : Nat) : Except String (QueryResult Row) × Nat :=
  withCensus openResult
    (fun h => (fetched.map (get_obs_metadata organism value_filter column_names limit), h))
    handles

/-- The full `get_var_metadata` call. -/
def get_var_metadata_call {Row : Type} (organism : String) (value_filter : Option String)
    (column_names : Option (List String)) (limit : Int)
    (openResult : Except String Unit) (fetched : Except String (List Row))
    (handles : Nat) : Except String (QueryResult Row) × Nat :=
  withCensus openResult
    (fun h => (fetched.map (get_var_metadata organism value_filter column_names limit), h))
    handles

/-- The full `get_data_slice` call (manager level). -/
def get_data_slice_call {Obs Var : Type} (organism : String)
    (obs_value_filter var_value_filter : Option String)
    (obs_column_names var_column_names : Option (List String))
    (max_cells max_genes : Int)
    (openResult : Except String Unit) (fetched : Except String (AnnData Obs Var))
    (handles : Nat) : Except String (SliceSummary Obs Var) × Nat :=
  withCensus openResult
    (fun h => (fetched.map (get_anndata_slice organism obs_value_filter var_value_filter
        obs_column_names var_column_names max_cells max_genes), h))
    handles

/-- The full `get_census_info` call: on a successful open, the per-organism
loop runs and the body itself never raises (per-organism failures are
caught inside the loop). -/
def get_census_info_call (openResult : Except String Unit) (organisms : List String)
    (fetch : String → Except String OrganismStats) (handles : Nat) :
    Except String CensusInfoResult × Nat :=
  withCensus openResult
    (fun h =>
      (Except.ok
        { supported_organisms := organisms
          organism_statistics := (organismStatsLoop fetch organisms).1
          total_cells_across_organisms := (organismStatsLoop fetch organisms).2 }, h))
    handles

end Calls

namespace CellxGeneMCP

/-- The value filter built by `get_all_cell_types` (server.py lines 464-467). -/
def cellTypesValueFilter (primary_data_only : Bool) : Option String :=
  if primary_data_only then some "is_primary_data == True" else none

/-- The result dictionary of `get_all_cell_types`; the two count fields are
present only when `include_counts` was set. -/
structure CellTypesResult where
  organism : String
  cell_types : List String
  total_unique_cell_types : Nat
  primary_data_only : Bool
  cell_type_counts : Option (List (String × Nat))
  top_10_cell_types : Option (List (String × Nat))

/-- `CellxGeneMCP.get_all_cell_types` (server.py lines 454-502), given the
`cell_type` column that `cellxgene_census.get_obs` returned (already
filtered by `cellTypesValueFilter primary_data_only`):
`unique().tolist()` then in-place `sort()`, and optionally `value_counts()`
with its `head(10)`. -/
def get_all_cell_types (organism : String) (include_counts : Bool)
    (primary_data_only : Bool) (cell_type_col : List String) : CellTypesResult :=
  let unique_cell_types := List.insertionSort (· ≤ ·) (pdUnique cell_type_col)
  { organism := organism
    cell_types := unique_cell_types
    total_unique_cell_types := unique_cell_types.length
    primary_data_only := primary_data_only
    cell_type_counts :=
      if include_counts then some (value_counts cell_type_col) else none
    top_10_cell_types :=
      if include_counts then some ((value_counts cell_type_col).take 10) else none }

/-- The full `get_all_cell_types` call with its connection scope. -/
def get_all_cell_types_call (organism : String) (include_counts : Bool)
    (primary_data_only : Bool) (openResult : Except String Unit)
    (fetched : Except String (List String)) (handles : Nat) :
    Except String CellTypesResult × Nat :=
  CensusManager.withCensus openResult
    (fun h => (fetched.map (get_all_cell_types organism include_counts primary_data_only), h))
    handles

/-- `CellxGeneMCP.get_obs_metadata` (server.py lines 384-402): parses the
comma-separated column selector and delegates.  `fetch` stands for the
archive read, as a function of the column list actually requested. -/
def get_obs_metadata {Row : Type} (organism : String) (value_filter : Option String)
    (column_names : Option String) (limit : Int)
    (fetch : Option (List String) → List Row) : QueryResult Row :=
  let columns := parseColumnNames column_names
  CensusManager.get_obs_metadata organism value_filter columns limit (fetch columns)

/-- `CellxGeneMCP.get_var_metadata` (server.py lines 404-422). -/
def get_var_metadata {Row : Type} (organism : String) (value_filter : Option String)
    (column_names : Option String) (limit : Int)
    (fetch : Option (List String) → List Row) : QueryResult Row :=
  let columns := parseColumnNames column_names
  CensusManager.get_var_metadata organism value_filter columns limit (fetch columns)

/-- `CellxGeneMCP.get_data_slice` (server.py lines 424-452): parses both
comma-separated column selectors and delegates.  `fetch` stands for the
archive read, as a function of the two column lists actually requested. -/
def get_data_slice {Obs Var : Type} (organism : String)
    (obs_value_filter var_value_filter : Option String)
    (obs_column_names var_column_names : Option String)
    (max_cells max_genes : Int)
    (fetch : Option (List String) → Option (List String) → AnnData Obs Var) :
    SliceSummary Obs Var :=
  let obs_columns := parseColumnNames obs_column_names
  let var_columns := parseColumnNames var_column_names
  CensusManager.get_anndata_slice organism obs_value_filter var_value_filter
    obs_columns var_columns max_cells max_genes (fetch obs_columns var_columns)

end CellxGeneMCP

/-! ### Helper lemmas -/

lemma pyTake_zero {α : Type} (l : List α) : pyTake l 0 = [] := by
  simp [pyTake]

lemma length_pyTake_le_of_nonneg {α : Type} (l : List α) (n : Int) (hn : 0 ≤ n) :
    ((pyTake l n).length : Int) ≤ n := by
  unfold pyTake
  rw [if_pos hn]
  have h1 : (l.take n.toNat).length ≤ n.toNat := by
    simp [List.length_take]
  calc ((l.take n.toNat).length : Int) ≤ (n.toNat : Int) := by exact_mod_cast h1
    _ = n := Int.toNat_of_nonneg hn

lemma length_trunc_le {α : Type} (l : List α) (n : Int) (hn : 0 ≤ n) :
    (((if (l.length : Int) > n then pyTake l n else l).length : Int)) ≤ n := by
  split
  · exact length_pyTake_le_of_nonneg l n hn
  · next h => exact le_of_not_lt h

lemma mem_pdUniqueAux {α : Type} [DecidableEq α] (a : α) (seen l : List α) :
    a ∈ pdUniqueAux seen l ↔ a ∈ l ∧ a ∉ seen := by
  induction l generalizing seen with
  | nil => simp [pdUniqueAux]
  | cons b l ih =>
    by_cases hb : b ∈ seen
    · rw [pdUniqueAux, if_pos hb, ih]
      constructor
      · rintro ⟨h1, h2⟩
        exact ⟨List.mem_cons_of_mem _ h1, h2⟩
      · rintro ⟨h1, h2⟩
        rcases List.mem_cons.mp h1 with rfl | h1
        · exact absurd hb h2
        · exact ⟨h1, h2⟩
    · rw [pdUniqueAux, if_neg hb]
      constructor
      · intro hmem
        rcases List.mem_cons.mp hmem with rfl | hmem2
        · exact ⟨List.mem_cons_self a l, hb⟩
        · obtain ⟨h1, h2⟩ := (ih (b :: seen)).mp hmem2
          exact ⟨List.mem_cons_of_mem _ h1, fun hs => h2 (List.mem_cons_of_mem _ hs)⟩
      · rintro ⟨h1, h2⟩
        rcases List.mem_cons.mp h1 with rfl | h1
        · exact List.mem_cons_self a _
        · by_cases hab : a = b
          · rw [hab]; exact List.mem_cons_self b _
          · refine List.mem_cons_of_mem _ ((ih (b :: seen)).mpr ⟨h1, ?_⟩)
            exact fun hmem => (List.mem_cons.mp hmem).elim hab h2

lemma nodup_pdUniqueAux {α : Type} [DecidableEq α] (seen l : List α) :
    (pdUniqueAux seen l).Nodup := by
  induction l generalizing seen with
  | nil => simp [pdUniqueAux]
  | cons b l ih =>
    rw [pdUniqueAux]
    split
    · exact ih seen
    · refine List.nodup_cons.mpr ⟨?_, ih (b :: seen)⟩
      intro hmem
      exact ((mem_pdUniqueAux b (b :: seen) l).mp hmem).2 (List.mem_cons_self b seen)

lemma nodup_pdUnique {α : Type} [DecidableEq α] (l : List α) : (pdUnique l).Nodup :=
  nodup_pdUniqueAux [] l

lemma mem_pdUnique {α : Type} [DecidableEq α] (a : α) (l : List α) :
    a ∈ pdUnique l ↔ a ∈ l := by
  rw [pdUnique, mem_pdUniqueAux]
  simp

lemma pdUnique_perm_dedup {α : Type} [DecidableEq α] (l : List α) :
    (pdUnique l).Perm l.dedup :=
  (List.perm_ext_iff_of_nodup (nodup_pdUnique l) (List.nodup_dedup l)).mpr
    (fun a => by rw [mem_pdUnique, List.mem_dedup])

lemma sum_value_counts (l : List String) :
    ((value_counts l).map Prod.snd).sum = l.length := by
  have hperm : (value_counts l).Perm ((pdUnique l).map (fun v => (v, l.count v))) :=
    List.perm_insertionSort _ _
  rw [(hperm.map Prod.snd).sum_eq, List.map_map]
  have h4 : ((pdUnique l).map (fun v => l.count v)).Perm
      (l.dedup.map (fun v => l.count v)) := (pdUnique_perm_dedup l).map _
  rw [show (Prod.snd ∘ fun v => (v, l.count v)) = fun v => l.count v from rfl]
  rw [h4.sum_eq]
  exact List.sum_map_count_dedup_eq_length l

lemma sorted_value_counts (l : List String) : (value_counts l).Sorted countDesc :=
  List.sorted_insertionSort _ _

/-- Normal form of `get_anndata_slice`: each axis is truncated independently
and every result field is computed from the truncated axes. -/
lemma get_anndata_slice_eq {Obs Var : Type} (organism : String)
    (ovf vvf : Option String) (ocn vcn : Option (List String))
    (max_cells max_genes : Int) (adata : AnnData Obs Var) :
    CensusManager.get_anndata_slice organism ovf vvf ocn vcn max_cells max_genes adata =
      (fun (obs2 : List Obs) (var2 : List Var) =>
        { n_obs := obs2.length
          n_vars := var2.length
          obs_columns := adata.obs_columns
          var_columns := adata.var_columns
          obs_sample := if 0 < obs2.length then obs2.take 5 else []
          var_sample := if 0 < var2.length then var2.take 5 else []
          query_info :=
            { organism := organism
              obs_value_filter := ovf
              var_value_filter := vvf
              cells_limited := decide ((obs2.length : Int) = max_cells)
              genes_limited := decide ((var2.length : Int) = max_genes) } })
        (if (adata.obs.length : Int) > max_cells then pyTake adata.obs max_cells else adata.obs)
        (if (adata.var.length : Int) > max_genes then pyTake adata.var max_genes else adata.var) := by
  unfold CensusManager.get_anndata_slice
  by_cases h1 : (adata.obs.length : Int) > max_cells <;>
    by_cases h2 : (adata.var.length : Int) > max_genes <;>
      simp [h1, h2]

/-! ### Claim theorems -/

/-- C1: the claim (and the spec) state that the `limited` flag of the Query
Envelope equals the pre-truncation row count compared with the limit, so a
query matching 12 rows with limit 5 should return count 5 and limited true.
The code evaluates `len(obs_df) > limit` only after `obs_df` has been
reassigned to its truncated head, so at that very input both metadata
queries return count 5 but limited false.  This theorem evaluates the
embedded code at the failing input. -/
theorem C1_limited_flag_failing_input :
    ((CensusManager.get_obs_metadata "Homo sapiens" none none 5
        (List.replicate 12 0)).count = 5 ∧
      (CensusManager.get_obs_metadata "Homo sapiens" none none 5
        (List.replicate 12 0)).query_info.limited = false) ∧
    ((CensusManager.get_var_metadata "Homo sapiens" none none 5
        (List.replicate 12 0)).count = 5 ∧
      (CensusManager.get_var_metadata "Homo sapiens" none none 5
        (List.replicate 12 0)).query_info.limited = false) := by
  decide

/-- C2: for both metadata queries with a positive limit, the envelope count
equals the number of returned rows and never exceeds the limit, whatever
dataframe the archive returned. -/
theorem C2_count_invariant {Row : Type} (organism : String) (vf : Option String)
    (cn : Option (List String)) (limit : Int) (obs_df var_df : List Row)
    (hpos : 0 < limit) :
    ((CensusManager.get_obs_metadata organism vf cn limit obs_df).count
        = (CensusManager.get_obs_metadata organism vf cn limit obs_df).rows.length ∧
      ((CensusManager.get_obs_metadata organism vf cn limit obs_df).count : Int) ≤ limit) ∧
    ((CensusManager.get_var_metadata organism vf cn limit var_df).count
        = (CensusManager.get_var_metadata organism vf cn limit var_df).rows.length ∧
      ((CensusManager.get_var_metadata organism vf cn limit var_df).count : Int) ≤ limit) := by
  refine ⟨⟨rfl, ?_⟩, ⟨rfl, ?_⟩⟩
  · exact length_trunc_le obs_df limit hpos.le
  · exact length_trunc_le var_df limit hpos.le

/-- Witness for C2 at a concrete input: five rows, limit 3. -/
theorem C2_count_invariant_witness :
    ((CensusManager.get_obs_metadata "Homo sapiens" none none 3 ([0, 1, 2, 3, 4] : List Nat)).count
        = (CensusManager.get_obs_metadata "Homo sapiens" none none 3 ([0, 1, 2, 3, 4] : List Nat)).rows.length ∧
      ((CensusManager.get_obs_metadata "Homo sapiens" none none 3 ([0, 1, 2, 3, 4] : List Nat)).count : Int) ≤ 3) ∧
    ((CensusManager.get_var_metadata "Homo sapiens" none none 3 ([0, 1] : List Nat)).count
        = (CensusManager.get_var_metadata "Homo sapiens" none none 3 ([0, 1] : List Nat)).rows.length ∧
      ((CensusManager.get_var_metadata "Homo sapiens" none none 3 ([0, 1] : List Nat)).count : Int) ≤ 3) :=
  C2_count_invariant "Homo sapiens" none none 3 [0, 1, 2, 3, 4] [0, 1] (by decide)

/-- C3: every query operation releases the handle it opened on every exit
path: whatever the open outcome and whatever the archive fetch returned
(success or error), the number of open handles after the call equals the
number before it. -/
theorem C3_handles_closed {Row Obs Var : Type} (organism : String)
    (vf ovf vvf : Option String) (cn ocn vcn : Option (List String))
    (limit max_cells max_genes : Int) (include_counts primary_data_only : Bool)
    (openResult : Except String Unit)
    (fobs fvar : Except String (List Row)) (fslice : Except String (AnnData Obs Var))
    (fcol : Except String (List String)) (organisms : List String)
    (fetch : String → Except String OrganismStats) (handles : Nat) :
    (Calls.get_obs_metadata_call organism vf cn limit openResult fobs handles).2 = handles ∧
    (Calls.get_var_metadata_call organism vf cn limit openResult fvar handles).2 = handles ∧
    (Calls.get_data_slice_call organism ovf vvf ocn vcn max_cells max_genes
        openResult fslice handles).2 = handles ∧
    (CellxGeneMCP.get_all_cell_types_call organism include_counts primary_data_only
        openResult fcol handles).2 = handles ∧
    (Calls.get_census_info_call openResult organisms fetch handles).2 = handles := by
  cases openResult <;>
    simp [Calls.get_obs_metadata_call, Calls.get_var_metadata_call,
      Calls.get_data_slice_call, CellxGeneMCP.get_all_cell_types_call,
      Calls.get_census_info_call, CensusManager.withCensus]

/-- C4 counterexample: the claim as stated quantifies over every call, but
`get_data_slice` accepts any int cap and Python slicing with a negative
bound keeps all but the last elements.  With max_cells = -3 against a
10-row matrix the summary has n_obs = 7, which is not ≤ -3, so the claimed
inequality fails. -/
theorem C4_counterexample :
    (CensusManager.get_anndata_slice "Homo sapiens" none none none none (-3) 2000
        (AnnData.mk (List.replicate 10 0) ([0] : List Nat) [] [])).n_obs = 7 ∧
    ¬ (((CensusManager.get_anndata_slice "Homo sapiens" none none none none (-3) 2000
        (AnnData.mk (List.replicate 10 0) ([0] : List Nat) [] [])).n_obs : Int) ≤ -3) := by
  decide

/-- C4 (amended): for every call to get_data_slice with nonnegative
max_cells and max_genes, the returned summary satisfies n_obs ≤ max_cells
and n_vars ≤ max_genes, for any size of the matrix retrieved from the
archive. -/
theorem C4_caps_hold {Obs Var : Type} (organism : String)
    (ovf vvf : Option String) (ocn vcn : Option (List String))
    (max_cells max_genes : Int) (adata : AnnData Obs Var)
    (hc : 0 ≤ max_cells) (hg : 0 ≤ max_genes) :
    ((CensusManager.get_anndata_slice organism ovf vvf ocn vcn max_cells max_genes
        adata).n_obs : Int) ≤ max_cells ∧
    ((CensusManager.get_anndata_slice organism ovf vvf ocn vcn max_cells max_genes
        adata).n_vars : Int) ≤ max_genes := by
  rw [get_anndata_slice_eq]
  exact ⟨length_trunc_le adata.obs max_cells hc, length_trunc_le adata.var max_genes hg⟩

/-- Witness for C4 (amended) at a concrete input: a 7 by 4 matrix with
caps 5 and 2000. -/
theorem C4_caps_hold_witness :
    ((CensusManager.get_anndata_slice "Homo sapiens" none none none none 5 2000
        (AnnData.mk (List.replicate 7 0) (List.replicate 4 0) [] [])).n_obs : Int) ≤ 5 ∧
    ((CensusManager.get_anndata_slice "Homo sapiens" none none none none 5 2000
        (AnnData.mk (List.replicate 7 0) (List.replicate 4 0) [] [])).n_vars : Int) ≤ 2000 :=
  C4_caps_hold "Homo sapiens" none none none none 5 2000
    (AnnData.mk (List.replicate 7 0) (List.replicate 4 0) [] []) (by decide) (by decide)

/-- C5: in every data-slice summary the cells_limited and genes_limited
flags are exactly the post-truncation dimension compared for equality with
the respective cap; and this is not the pre-truncation comparison: at a
matrix with exactly 5 rows and cap 5 the flag is true although the
pre-truncation count does not exceed the cap. -/
theorem C5_flags_post_truncation {Obs Var : Type} (organism : String)
    (ovf vvf : Option String) (ocn vcn : Option (List String))
    (max_cells max_genes : Int) (adata : AnnData Obs Var) :
    ((CensusManager.get_anndata_slice organism ovf vvf ocn vcn max_cells max_genes
          adata).query_info.cells_limited
        = decide (((CensusManager.get_anndata_slice organism ovf vvf ocn vcn max_cells
          max_genes adata).n_obs : Int) = max_cells) ∧
      (CensusManager.get_anndata_slice organism ovf vvf ocn vcn max_cells max_genes
          adata).query_info.genes_limited
        = decide (((CensusManager.get_anndata_slice organism ovf vvf ocn vcn max_cells
          max_genes adata).n_vars : Int) = max_genes)) ∧
    ((CensusManager.get_anndata_slice "Homo sapiens" none none none none 5 2000
        (AnnData.mk (List.replicate 5 0) ([0] : List Nat) [] [])).query_info.cells_limited
          = true ∧
      ¬ (((List.replicate 5 (0 : Nat)).length : Int) > 5)) := by
  refine ⟨⟨rfl, rfl⟩, by decide⟩

/-- C9: a get_data_slice call with max_cells = 0 against a matrix with at
least one observation row returns successfully with n_obs = 0 and an empty
observation sample, rather than raising. -/
theorem C9_zero_cap {Obs Var : Type} (organism : String) (ovf vvf : Option String)
    (ocn vcn : Option (List String)) (max_genes : Int) (adata : AnnData Obs Var)
    (handles : Nat) (hrow : 1 ≤ adata.obs.length) :
    (Calls.get_data_slice_call organism ovf vvf ocn vcn 0 max_genes
        (Except.ok ()) (Except.ok adata) handles).1 =
      Except.ok (CensusManager.get_anndata_slice organism ovf vvf ocn vcn 0 max_genes
        adata) ∧
    (CensusManager.get_anndata_slice organism ovf vvf ocn vcn 0 max_genes adata).n_obs
      = 0 ∧
    (CensusManager.get_anndata_slice organism ovf vvf ocn vcn 0 max_genes adata).obs_sample
      = [] := by
  refine ⟨by simp [Calls.get_data_slice_call, CensusManager.withCensus, Except.map], ?_, ?_⟩ <;>
  · rw [get_anndata_slice_eq]
    have hc : (adata.obs.length : Int) > 0 := by exact_mod_cast hrow
    simp [hc, pyTake_zero]

/-- Witness for C9 at a concrete input: a 1 by 1 matrix. -/
theorem C9_zero_cap_witness :
    (Calls.get_data_slice_call "Homo sapiens" none none none none 0 2000
        (Except.ok ()) (Except.ok (AnnData.mk ([0] : List Nat) ([0] : List Nat) [] []))
        0).1 =
      Except.ok (CensusManager.get_anndata_slice "Homo sapiens" none none none none 0 2000
        (AnnData.mk ([0] : List Nat) ([0] : List Nat) [] [])) ∧
    (CensusManager.get_anndata_slice "Homo sapiens" none none none none 0 2000
        (AnnData.mk ([0] : List Nat) ([0] : List Nat) [] [])).n_obs = 0 ∧
    (CensusManager.get_anndata_slice "Homo sapiens" none none none none 0 2000
        (AnnData.mk ([0] : List Nat) ([0] : List Nat) [] [])).obs_sample = [] :=
  C9_zero_cap "Homo sapiens" none none none none 2000
    (AnnData.mk ([0] : List Nat) ([0] : List Nat) [] []) 0 (by decide)

/-- C6: get_all_cell_types returns a cell_types list that is sorted in
ascending lexicographic order and has no duplicates, for any sequence of
cell-type labels retrieved from the archive. -/
theorem C6_sorted_nodup (organism : String) (include_counts primary_data_only : Bool)
    (cell_type_col : List String) :
    (CellxGeneMCP.get_all_cell_types organism include_counts primary_data_only
        cell_type_col).cell_types.Sorted (· ≤ ·) ∧
    (CellxGeneMCP.get_all_cell_types organism include_counts primary_data_only
        cell_type_col).cell_types.Nodup := by
  constructor
  · exact List.sorted_insertionSort _ _
  · exact ((List.perm_insertionSort _ _).nodup_iff).mpr (nodup_pdUnique _)

/-- C7: with include_counts set, the returned frequency mapping sums to the
total number of rows retrieved, and top_10_cell_types is the prefix of at
most 10 entries of the descending-frequency ordering, so every entry it
holds has a count at least as large as every entry it leaves out. -/
theorem C7_counts (organism : String) (primary_data_only : Bool)
    (cell_type_col : List String) :
    (CellxGeneMCP.get_all_cell_types organism true primary_data_only
        cell_type_col).cell_type_counts = some (value_counts cell_type_col) ∧
    ((value_counts cell_type_col).map Prod.snd).sum = cell_type_col.length ∧
    (CellxGeneMCP.get_all_cell_types organism true primary_data_only
        cell_type_col).top_10_cell_types = some ((value_counts cell_type_col).take 10) ∧
    ((value_counts cell_type_col).take 10).length ≤ 10 ∧
    ((value_counts cell_type_col).take 10).Sorted countDesc ∧
    (∀ p ∈ (value_counts cell_type_col).take 10,
      ∀ q ∈ (value_counts cell_type_col).drop 10, q.2 ≤ p.2) := by
  refine ⟨rfl, sum_value_counts _, rfl, List.length_take_le _ _, ?_, ?_⟩
  · exact (sorted_value_counts _).sublist (List.take_sublist _ _)
  · have h2 : (((value_counts cell_type_col).take 10)
        ++ ((value_counts cell_type_col).drop 10)).Pairwise countDesc := by
      rw [List.take_append_drop]
      exact sorted_value_counts _
    exact fun p hp q hq => (List.pairwise_append.mp h2).2.2 p hp q hq

/-- C8: the per-organism loop of get_census_info records, for each organism
independently, either its statistics or the caught failure, so one
organism's failure never disturbs the others' entries; and with a
successful open, the call as a whole returns successfully whatever the
per-organism outcomes are. -/
theorem C8_partial_failure (fetch : String → Except String OrganismStats)
    (organisms : List String) (handles : Nat) :
    (organismStatsLoop fetch organisms).1
      = organisms.map (fun org => (org, fetch org)) ∧
    (Calls.get_census_info_call (Except.ok ()) organisms fetch handles).1 =
      Except.ok
        { supported_organisms := organisms
          organism_statistics := organisms.map (fun org => (org, fetch org))
          total_cells_across_organisms := (organismStatsLoop fetch organisms).2 } := by
  have hmap : ∀ orgs : List String,
      (organismStatsLoop fetch orgs).1 = orgs.map (fun org => (org, fetch org)) := by
    intro orgs
    induction orgs with
    | nil => rfl
    | cons o rest ih =>
      rw [organismStatsLoop]
      cases h : fetch o <;> simp [h, ih]
  refine ⟨hmap organisms, ?_⟩
  simp [Calls.get_census_info_call, CensusManager.withCensus, hmap organisms]

/-- C10: in every MCP-level wrapper, passing the empty string as a
column-selector argument is Python-falsy and therefore behaves exactly like
omitting the argument: the parsed selector is absent (not a one-element
list holding the empty column name), the archive is asked for all columns,
and the full results coincide. -/
theorem C10_empty_selector {Row Obs Var : Type} (organism : String)
    (vf ovf vvf : Option String) (limit max_cells max_genes : Int)
    (fetch : Option (List String) → List Row)
    (fetch2 : Option (List String) → Option (List String) → AnnData Obs Var) :
    parseColumnNames (some "") = parseColumnNames none ∧
    parseColumnNames (some "") ≠ some [""] ∧
    CellxGeneMCP.get_obs_metadata organism vf (some "") limit fetch
      = CellxGeneMCP.get_obs_metadata organism vf none limit fetch ∧
    CellxGeneMCP.get_var_metadata organism vf (some "") limit fetch
      = CellxGeneMCP.get_var_metadata organism vf none limit fetch ∧
    CellxGeneMCP.get_data_slice organism ovf vvf (some "") (some "") max_cells max_genes
        fetch2
      = CellxGeneMCP.get_data_slice organism ovf vvf none none max_cells max_genes
        fetch2 := by
  refine ⟨rfl, by decide, rfl, rfl, rfl⟩

end Cellxgene
